import Mathlib

/-!
Verification of the godot-sandbox syscall layer: a shallow embedding of the
capability-scope mechanism, the syscall handlers of `sandbox_profiling.cpp`
(the syscall portion of the translation unit), the call-state stack declared
in `sandbox.h`, and the dispatcher fallback installed by
`Sandbox::initialize_syscalls`.

Modelling conventions:
- Raw host pointers (`godot::Object *`, `uintptr_t`) are modelled as `Nat`
  addresses; the null pointer is address 0.
- Guest-visible wire values (`GuestVariant`, a type tag plus a union payload
  `v.i`) are modelled as the inductive `GuestVariant`; host `godot::Variant`
  values are modelled as the inductive `Variant`.  Godot `Array`, `Dictionary`
  and `String` values reached through scoped-variant handles live in explicit
  heaps inside `SState`, so that the reference (copy-on-write shared)
  semantics of Godot collections is preserved: a local copy obtained from a
  scoped variant aliases the same heap cell.
- Floating-point payloads (Vector2/Vector3 components) are carried as opaque
  `Int` bit-payloads; no claim computes with them.
- The host engine (Godot object graph, node tree, `Variant::evaluate`) is the
  out-of-scope external collaborator of the spec; its read primitives are a
  `HostEngine` record of pure functions and its mutation primitives are
  recorded in an effect log (`HostLog`) inside the state.
- `machine.penalize(n)` adds to the budget counter `SState.budget`.
- Handlers return `SState × Except SysErr HOut`: C++ `throw` is `.error`,
  normal completion is `.ok`; the returned state is the state at the moment
  of the throw/return (so a throw after `penalize` still keeps the charge).
-/

namespace GodotSandboxModel

/-- Error conditions raised (as C++ exceptions) or classified by the syscall
layer.  `objectIsNull` is the "Object is Null" / "Node object is Null" throw,
`objectNotScoped` the "Object is not scoped" / "Node object is not scoped"
throw of `get_object_from_address` / `get_node_from_address`. -/
inductive SysErr where
  | objectIsNull
  | objectNotScoped
  | variantNotScoped
  | invalidArrayObject
  | invalidDictionaryObject
  | invalidOperation
  | tooManyArguments
  | tooManyVariants
  | cannotQueueFreeSandbox
  | notANode2D
  | notANode3D
  | unsupportedType
  | indexOutOfBounds
  | stackOverflow
  deriving Repr, DecidableEq

/-- Host-side `godot::Variant` values.  Collection kinds hold a handle into
the corresponding heap in `SState` (Godot collections are shared references),
`obj` holds a raw host address, `packed` models the Packed*Array kinds with
the Godot type tag and the element payloads. -/
inductive Variant where
  | nil
  | boolean (b : Bool)
  | int (i : Int)
  | vec2 (x y : Int)
  | vec3 (x y z : Int)
  | str (s : String)
  | arrayRef (h : Nat)
  | dictRef (h : Nat)
  | packed (tag : Nat) (xs : List Int)
  | obj (addr : Nat)
  deriving Repr, DecidableEq

/-- The guest-resident wire form (`GuestVariant`: a `Variant::Type` tag plus
union payload `v.i`).  Inline kinds carry their value; for STRING/ARRAY/
DICTIONARY/Packed*Array kinds `v.i` is a scoped-variant index; for OBJECT
kind `v.i` is a raw host address. -/
inductive GuestVariant where
  | nil
  | boolean (b : Bool)
  | int (i : Int)
  | vec2 (x y : Int)
  | vec3 (x y z : Int)
  | strIdx (idx : Nat)
  | arrayIdx (idx : Nat)
  | dictIdx (idx : Nat)
  | packedIdx (idx : Nat)
  | object (addr : Nat)
  deriving Repr, DecidableEq

/-- The raw union payload `v.i` of a `GuestVariant`, read without regard to
the type tag (as `api_obj`'s CONNECT arm and `api_node`'s child operations
do with `vars[k].v.i`). -/
def GuestVariant.payload : GuestVariant → Nat
  | .nil => 0
  | .boolean b => if b then 1 else 0
  | .int i => i.toNat
  | .vec2 x _ => x.toNat
  | .vec3 x _ _ => x.toNat
  | .strIdx i => i
  | .arrayIdx i => i
  | .dictIdx i => i
  | .packedIdx i => i
  | .object a => a

/-- Whether a `GuestVariant` is an inline (by-value) kind: its decoding does
not consult the capability scope. -/
def GuestVariant.isInline : GuestVariant → Bool
  | .nil => true
  | .boolean _ => true
  | .int _ => true
  | .vec2 _ _ => true
  | .vec3 _ _ _ => true
  | _ => false

/-- The host value carried by an inline-kind `GuestVariant` (nil for
reference kinds, unused there). -/
def GuestVariant.inlineVal : GuestVariant → Variant
  | .nil => .nil
  | .boolean b => .boolean b
  | .int i => .int i
  | .vec2 x y => .vec2 x y
  | .vec3 x y z => .vec3 x y z
  | _ => .nil

/-- Effect log of host-engine mutations performed by syscall handlers.  Each
field records one family of engine primitives (the opaque object-graph
collaborators of the spec); an entry means the corresponding host operation
was performed. -/
structure HostLog where
  printedVariants : List Variant := []
  diagnostics : List String := []
  propSets : List (Nat × String × Variant) := []
  connects : List (Nat × String × Nat × String) := []
  disconnects : List (Nat × String × Nat × String) := []
  methodCalls : List (Nat × String × List Variant) := []
  deferredMethodCalls : List (Nat × String × List Variant) := []
  queuedFree : List Nat := []
  nameSets : List (Nat × String) := []
  childAdds : List (Nat × Nat × Bool) := []
  siblingAdds : List (Nat × Nat × Bool) := []
  childMoves : List (Nat × Nat × Nat) := []
  childRemoves : List (Nat × Nat × Bool) := []
  spatialSets2D : List (Nat × Nat × Variant) := []
  deferredSets2D : List (Nat × Nat × Variant) := []
  spatialSets3D : List (Nat × Nat × Variant) := []
  objEvals : List (Nat × Variant × Variant) := []
  deriving Repr, DecidableEq

/-- The sandbox state visible to one syscall: the currently active capability
scope (`scoped_objects`, `scoped_variants` of `Sandbox::CurrentState`), the
collection heaps backing scoped Array/Dictionary variants, the accumulated
budget penalty, the configured tree base (`Sandbox::m_tree_base`), the
address of the sandbox's own host node (`&emu`), and the host effect log. -/
structure SState where
  scoped_objects : List Nat := []
  scoped_variants : List Variant := []
  arrays : List (List Variant) := []
  dicts : List (List (Variant × Variant)) := []
  budget : Nat := 0
  tree_base : Option Nat := none
  self_addr : Nat := 0
  log : HostLog := {}
  deriving Repr, DecidableEq

/-- Read primitives of the host engine (the out-of-scope object graph and
scene tree): pure query functions, arbitrary for the theorems (quantified),
concrete for witnesses. -/
structure HostEngine where
  evaluateOp : Nat → Variant → Variant → Bool × Variant
  getProp : Nat → String → Variant
  methodList : Nat → List String
  propertyList : Nat → List String
  signalList : Nat → List String
  callMethod : Nat → String → List Variant → Variant
  nodeName : Nat → String
  nodePath : Nat → String
  nodeParent : Nat → Option Nat
  nodeChildren : Nat → List Nat
  getNodeByPath : Nat → String → Option Nat
  duplicateNode : Nat → Nat
  isNode2D : Nat → Bool
  isNode3D : Nat → Bool
  spatial2D : Nat → Nat → Variant
  spatial3D : Nat → Nat → Variant
  sortArray : List Variant → List Variant

/-- `machine.penalize(n)`: add `n` to the instruction/budget counter. -/
def penalize (st : SState) (n : Nat) : SState :=
  { st with budget := st.budget + n }

/-- `Sandbox::is_scoped_object`: membership of the raw address in the current
state's `scoped_objects` list (linear scan in the source). -/
def is_scoped_object (st : SState) (addr : Nat) : Bool :=
  st.scoped_objects.contains addr

/-- Modelled from the spec: `Sandbox::add_scoped_object` is declared in
`sandbox.h` but its body is not among the provided sources; per the spec's
`admit_object(addr)` it adds the raw address to the scoped-objects admission
set of the currently active level. -/
def add_scoped_object (st : SState) (addr : Nat) : SState :=
  { st with scoped_objects := addr :: st.scoped_objects }

/-- Modelled from the spec: `Sandbox::get_scoped_variant` is declared in
`sandbox.h` but its body is not among the provided sources; per the spec's
`get(handle)` it returns the stored value when the handle is within range
for the current level and signals an invalid handle otherwise. -/
def get_scoped_variant (st : SState) (idx : Nat) : Option Variant :=
  st.scoped_variants.get? idx

/-- Modelled from the spec: `Sandbox::create_scoped_variant` is declared in
`sandbox.h` but its body is not among the provided sources; per the spec's
`add_owned(value)` it stores the value in the current level and returns its
stable index (insertion order). -/
def create_scoped_variant (st : SState) (v : Variant) : SState × Nat :=
  ({ st with scoped_variants := st.scoped_variants ++ [v] },
   st.scoped_variants.length)

/-- Modelled from the spec: `GuestVariant::toVariant` (decode) lives in
`guest_datatypes.h/.cpp`, not among the provided sources; per the spec's
Variant Codec contract, decoding an inline kind is direct, decoding a
reference kind resolves the scoped handle and fails (rather than silently
substituting a null value) when scope validation fails. -/
def toVariant (st : SState) : GuestVariant → Except SysErr Variant
  | .nil => .ok .nil
  | .boolean b => .ok (.boolean b)
  | .int i => .ok (.int i)
  | .vec2 x y => .ok (.vec2 x y)
  | .vec3 x y z => .ok (.vec3 x y z)
  | .object a =>
      if is_scoped_object st a then .ok (.obj a) else .error .objectNotScoped
  | .strIdx i =>
      match get_scoped_variant st i with
      | some v => .ok v
      | none => .error .variantNotScoped
  | .arrayIdx i =>
      match get_scoped_variant st i with
      | some v => .ok v
      | none => .error .variantNotScoped
  | .dictIdx i =>
      match get_scoped_variant st i with
      | some v => .ok v
      | none => .error .variantNotScoped
  | .packedIdx i =>
      match get_scoped_variant st i with
      | some v => .ok v
      | none => .error .variantNotScoped

/-- Decode a guest-memory span of `GuestVariant`s left to right, failing at
the first element whose decoding fails. -/
def toVariantList (st : SState) : List GuestVariant → Except SysErr (List Variant)
  | [] => .ok []
  | g :: gs =>
      match toVariant st g with
      | .error e => .error e
      | .ok v =>
          match toVariantList st gs with
          | .error e => .error e
          | .ok vs => .ok (v :: vs)

/-- Modelled from the spec: `GuestVariant::create` / `set` (encode) live in
`guest_datatypes.h/.cpp`, not among the provided sources; per the spec's
Variant Codec contract, inline kinds are written directly and reference
kinds route through `add_owned` (collections/strings) or `admit_object`
(host objects) of the currently active capability scope. -/
def createGuest (st : SState) : Variant → SState × GuestVariant
  | .nil => (st, .nil)
  | .boolean b => (st, .boolean b)
  | .int i => (st, .int i)
  | .vec2 x y => (st, .vec2 x y)
  | .vec3 x y z => (st, .vec3 x y z)
  | .str s =>
      let p := create_scoped_variant st (.str s)
      (p.1, .strIdx p.2)
  | .arrayRef h =>
      let p := create_scoped_variant st (.arrayRef h)
      (p.1, .arrayIdx p.2)
  | .dictRef h =>
      let p := create_scoped_variant st (.dictRef h)
      (p.1, .dictIdx p.2)
  | .packed t xs =>
      let p := create_scoped_variant st (.packed t xs)
      (p.1, .packedIdx p.2)
  | .obj a => (add_scoped_object st a, .object a)

/-- `Variant::operator String()` as used by the handlers on decoded name /
signal / method arguments (string kinds pass through; other kinds stringify
or collapse, which no modelled handler distinguishes). -/
def Variant.asGodotString : Variant → String
  | .str s => s
  | .int i => toString i
  | .boolean true => "true"
  | .boolean false => "false"
  | _ => ""

/-- Result channel of one syscall handler: `machine.set_result` values,
guest-memory writebacks of `GuestVariant`s or string/address vectors, or
nothing. -/
inductive HOut where
  | unit
  | strs (xs : List String)
  | gv (g : GuestVariant)
  | nums (xs : List Nat)
  | num (n : Int)
  | boolean (b : Bool)
  | pair (valid : Bool) (g : GuestVariant)
  deriving Repr, DecidableEq

/-- A handler outcome: the state at return/throw time, and the result or the
thrown error. -/
abbrev HResult := SState × Except SysErr HOut

/-- True when the handler outcome is a thrown error (fatal to the current
call). -/
def failed : Except SysErr HOut → Bool
  | .error _ => true
  | .ok _ => false

/-- `get_object_from_address`: null check, then scope-admission check, then
the raw address is usable as a host object. -/
def get_object_from_address (st : SState) (addr : Nat) : Except SysErr Nat :=
  if addr = 0 then .error .objectIsNull
  else if is_scoped_object st addr then .ok addr
  else .error .objectNotScoped

/-- `get_node_from_address`: identical structure to
`get_object_from_address` (the source duplicates it for `godot::Node`). -/
def get_node_from_address (st : SState) (addr : Nat) : Except SysErr Nat :=
  if addr = 0 then .error .objectIsNull
  else if is_scoped_object st addr then .ok addr
  else .error .objectNotScoped

/-- The loop of `api_print`: each `GuestVariant` of the guest span is decoded
and printed (`UtilityFunctions::print`); a decode throw stops the loop,
keeping the variants already printed. -/
def printLoop (st : SState) : List GuestVariant → HResult
  | [] => (st, .ok .unit)
  | g :: gs =>
      match toVariant st g with
      | .error e => (st, .error e)
      | .ok v =>
          printLoop
            { st with log := { st.log with
                printedVariants := st.log.printedVariants ++ [v] } } gs

/-- `api_print`: rejects spans of 64 or more variants, then prints each
decoded variant.  Note: charges no penalty. -/
def api_print (st : SState) (vars : List GuestVariant) : HResult :=
  if 64 ≤ vars.length then (st, .error .tooManyVariants)
  else printLoop st vars

/-- `Variant::Operator::OP_EQUAL` (first enumerator of the Godot operator
enum). -/
def OP_EQUAL : Nat := 0

/-- `api_veval`: evaluate a binary operator.  Two OBJECT-kind operands with
`OP_EQUAL` compare raw `v.i` addresses directly ("allowing invalid objects
to be compared") with no scope check; any other operator on two OBJECT-kind
operands resolves both addresses through `get_object_from_address` and hands
them to the engine's `Variant::evaluate`; non-object operand pairs decode
through the codec and evaluate.  Charges no penalty. -/
def api_veval (E : HostEngine) (st : SState) (op : Nat)
    (ap bp : GuestVariant) : HResult :=
  match ap, bp with
  | .object aa, .object ba =>
      if op = OP_EQUAL then
        (st, .ok (.pair true (.boolean (aa == ba))))
      else
        match get_object_from_address st aa with
        | .error e => (st, .error e)
        | .ok _ =>
            match get_object_from_address st ba with
            | .error e => (st, .error e)
            | .ok _ =>
                let r := E.evaluateOp op (.obj aa) (.obj ba)
                let st1 := { st with log := { st.log with
                    objEvals := st.log.objEvals ++ [(op, .obj aa, .obj ba)] } }
                let p := createGuest st1 r.2
                (p.1, .ok (.pair r.1 p.2))
  | _, _ =>
      match toVariant st ap with
      | .error e => (st, .error e)
      | .ok av =>
          match toVariant st bp with
          | .error e => (st, .error e)
          | .ok bv =>
              let r := E.evaluateOp op av bv
              let st1 := { st with log := { st.log with
                  objEvals := st.log.objEvals ++ [(op, av, bv)] } }
              let p := createGuest st1 r.2
              (p.1, .ok (.pair r.1 p.2))

/-- Godot `Variant::Type` tags used by `api_vcreate`. -/
def TYPE_STRING : Nat := 4

def TYPE_STRING_NAME : Nat := 21

def TYPE_NODE_PATH : Nat := 22

def TYPE_DICTIONARY : Nat := 27

def TYPE_ARRAY : Nat := 28

def TYPE_PACKED_BYTE_ARRAY : Nat := 29

def TYPE_PACKED_INT32_ARRAY : Nat := 30

def TYPE_PACKED_INT64_ARRAY : Nat := 31

def TYPE_PACKED_FLOAT32_ARRAY : Nat := 32

def TYPE_PACKED_FLOAT64_ARRAY : Nat := 33

/-- The guest-memory datum `api_vcreate` reads at `gdata`, per arm: null
pointer, a guest `std::string`/`std::u32string`, a guest vector of
`GuestVariant`s, or a guest vector of raw (byte/int/float) elements. -/
inductive VcreateData where
  | nullPtr
  | stdStr (s : String)
  | varVec (xs : List GuestVariant)
  | rawVec (xs : List Int)
  deriving Repr, DecidableEq

/-- `api_vcreate`: penalize 10'000, then create a scoped variant of the
requested `Variant::Type`: string kinds from a guest string (methods 0 and
2 only), ARRAY empty or copied from a guest vector of variants, DICTIONARY
empty, Packed*Array kinds empty or copied from a guest vector; any other
type throws.  The written-back `GuestVariant` carries the new scoped
index. -/
def api_vcreate (st : SState) (vtype : Nat) (method : Int)
    (gdata : VcreateData) : HResult :=
  let st1 := penalize st 10000
  if vtype = TYPE_STRING ∨ vtype = TYPE_STRING_NAME ∨ vtype = TYPE_NODE_PATH then
    if method = 0 ∨ method = 2 then
      match gdata with
      | .stdStr s =>
          let p := create_scoped_variant st1 (.str s)
          (p.1, .ok (.gv (.strIdx p.2)))
      | _ => (st1, .error .unsupportedType)
    else (st1, .error .unsupportedType)
  else if vtype = TYPE_ARRAY then
    match gdata with
    | .nullPtr =>
        let h := st1.arrays.length
        let st2 := { st1 with arrays := st1.arrays ++ [[]] }
        let p := create_scoped_variant st2 (.arrayRef h)
        (p.1, .ok (.gv (.arrayIdx p.2)))
    | .varVec xs =>
        match toVariantList st1 xs with
        | .error e => (st1, .error e)
        | .ok vs =>
            let h := st1.arrays.length
            let st2 := { st1 with arrays := st1.arrays ++ [vs] }
            let p := create_scoped_variant st2 (.arrayRef h)
            (p.1, .ok (.gv (.arrayIdx p.2)))
    | _ => (st1, .error .unsupportedType)
  else if vtype = TYPE_DICTIONARY then
    let h := st1.dicts.length
    let st2 := { st1 with dicts := st1.dicts ++ [[]] }
    let p := create_scoped_variant st2 (.dictRef h)
    (p.1, .ok (.gv (.dictIdx p.2)))
  else if vtype = TYPE_PACKED_BYTE_ARRAY ∨ vtype = TYPE_PACKED_INT32_ARRAY ∨
      vtype = TYPE_PACKED_INT64_ARRAY ∨ vtype = TYPE_PACKED_FLOAT32_ARRAY ∨
      vtype = TYPE_PACKED_FLOAT64_ARRAY then
    match gdata with
    | .nullPtr =>
        let p := create_scoped_variant st1 (.packed vtype [])
        (p.1, .ok (.gv (.packedIdx p.2)))
    | .rawVec xs =>
        let p := create_scoped_variant st1 (.packed vtype xs)
        (p.1, .ok (.gv (.packedIdx p.2)))
    | _ => (st1, .error .unsupportedType)
  else (st1, .error .unsupportedType)

/-- `api_get_node`: penalize 150'000, then resolve a node by path.  With base
address 0 the configured tree base is the origin (result 0 when none is
configured); with a non-zero base address the scope-admission check failing
yields result 0 (not a throw).  An unresolved path yields result 0.  A
resolved node is admitted to the current scope and its address returned. -/
def api_get_node (E : HostEngine) (st : SState) (addr : Nat)
    (name : String) : HResult :=
  let st1 := penalize st 150000
  if addr = 0 then
    match st1.tree_base with
    | none => (st1, .ok (.num 0))
    | some base =>
        match E.getNodeByPath base name with
        | none => (st1, .ok (.num 0))
        | some node => (add_scoped_object st1 node, .ok (.num node))
  else
    if is_scoped_object st1 addr then
      match E.getNodeByPath addr name with
      | none => (st1, .ok (.num 0))
      | some node => (add_scoped_object st1 node, .ok (.num node))
    else (st1, .ok (.num 0))

/-- `Object_Op`: the operation selector of `api_obj`; `unknownOp` stands for
any integer outside the enumerated arms (the `default:` case). -/
inductive ObjOp where
  | getMethodList
  | get
  | set
  | getPropertyList
  | connect
  | disconnect
  | getSignalList
  | unknownOp (n : Nat)
  deriving Repr, DecidableEq

/-- `api_obj`: penalize 250'000, check the target address is scoped (inline
check, no null test), then perform the selected generic-object operation;
CONNECT/DISCONNECT additionally resolve the callable target address through
`get_object_from_address`. -/
def api_obj (E : HostEngine) (st : SState) (op : ObjOp) (addr : Nat)
    (gvar : List GuestVariant) : HResult :=
  let st1 := penalize st 250000
  if is_scoped_object st1 addr then
    match op with
    | .getMethodList => (st1, .ok (.strs (E.methodList addr)))
    | .get =>
        match toVariant st1 (gvar.getD 0 .nil) with
        | .error e => (st1, .error e)
        | .ok nv =>
            let p := createGuest st1 (E.getProp addr nv.asGodotString)
            (p.1, .ok (.gv p.2))
    | .set =>
        match toVariant st1 (gvar.getD 0 .nil) with
        | .error e => (st1, .error e)
        | .ok nv =>
            match toVariant st1 (gvar.getD 1 .nil) with
            | .error e => (st1, .error e)
            | .ok vv =>
                ({ st1 with log := { st1.log with
                    propSets := st1.log.propSets ++
                      [(addr, nv.asGodotString, vv)] } }, .ok .unit)
    | .getPropertyList => (st1, .ok (.strs (E.propertyList addr)))
    | .connect =>
        match get_object_from_address st1 (gvar.getD 0 .nil).payload with
        | .error e => (st1, .error e)
        | .ok target =>
            match toVariant st1 (gvar.getD 2 .nil) with
            | .error e => (st1, .error e)
            | .ok mv =>
                match toVariant st1 (gvar.getD 1 .nil) with
                | .error e => (st1, .error e)
                | .ok sv =>
                    ({ st1 with log := { st1.log with
                        connects := st1.log.connects ++
                          [(addr, sv.asGodotString, target,
                            mv.asGodotString)] } }, .ok .unit)
    | .disconnect =>
        match get_object_from_address st1 (gvar.getD 0 .nil).payload with
        | .error e => (st1, .error e)
        | .ok target =>
            match toVariant st1 (gvar.getD 2 .nil) with
            | .error e => (st1, .error e)
            | .ok mv =>
                match toVariant st1 (gvar.getD 1 .nil) with
                | .error e => (st1, .error e)
                | .ok sv =>
                    ({ st1 with log := { st1.log with
                        disconnects := st1.log.disconnects ++
                          [(addr, sv.asGodotString, target,
                            mv.asGodotString)] } }, .ok .unit)
    | .getSignalList => (st1, .ok (.strs (E.signalList addr)))
    | .unknownOp _ => (st1, .error .invalidOperation)
  else (st1, .error .objectNotScoped)

/-- `api_obj_callp`: penalize 250'000, check the target address is scoped
(inline check, no null test), reject more than 8 arguments, decode the
argument span, then call the method directly (recording the call and
writing back the engine result when a return slot was given) or deferred
(recording the deferred call). -/
def api_obj_callp (E : HostEngine) (st : SState) (addr : Nat)
    (method : String) (deferred : Bool) (hasRet : Bool)
    (args : List GuestVariant) : HResult :=
  let st1 := penalize st 250000
  if is_scoped_object st1 addr then
    if 8 < args.length then (st1, .error .tooManyArguments)
    else
      match toVariantList st1 args with
      | .error e => (st1, .error e)
      | .ok vargs =>
          if deferred then
            ({ st1 with log := { st1.log with
                deferredMethodCalls := st1.log.deferredMethodCalls ++
                  [(addr, method, vargs)] } }, .ok .unit)
          else
            let ret := E.callMethod addr method vargs
            let st2 := { st1 with log := { st1.log with
                methodCalls := st1.log.methodCalls ++
                  [(addr, method, vargs)] } }
            if hasRet then
              let p := createGuest st2 ret
              (p.1, .ok (.gv p.2))
            else (st2, .ok .unit)
  else (st1, .error .objectNotScoped)

/-- `Node_Op`: the operation selector of `api_node`; `unknownOp` stands for
any integer outside the enumerated arms (the `default:` case). -/
inductive NodeOp where
  | getName
  | setName
  | getPath
  | getParent
  | queueFree
  | duplicate
  | getChildCount
  | getChild
  | addChild
  | addChildDeferred
  | addSibling
  | addSiblingDeferred
  | moveChild
  | removeChild
  | removeChildDeferred
  | getChildren
  | unknownOp (n : Nat)
  deriving Repr, DecidableEq

/-- `node->queue_free()`: record the node address in the destruction queue. -/
def queue_free_node (st : SState) (addr : Nat) : SState :=
  { st with log := { st.log with queuedFree := st.log.queuedFree ++ [addr] } }

/-- `api_node`: penalize 250'000, resolve the node address through
`get_node_from_address` (null check then scope check), then perform the
selected tree-node operation.  `QUEUE_FREE` refuses the sandbox's own host
node (`node == &emu`); child arguments of ADD/MOVE/REMOVE arms are
themselves resolved through `get_node_from_address`; nodes handed back
(parent, duplicate, children) are admitted to the current scope. -/
def api_node (E : HostEngine) (st : SState) (op : NodeOp) (addr : Nat)
    (gvar : List GuestVariant) : HResult :=
  let st1 := penalize st 250000
  match get_node_from_address st1 addr with
  | .error e => (st1, .error e)
  | .ok _ =>
      match op with
      | .getName =>
          let p := createGuest st1 (.str (E.nodeName addr))
          (p.1, .ok (.gv p.2))
      | .setName =>
          match toVariant st1 (gvar.getD 0 .nil) with
          | .error e => (st1, .error e)
          | .ok nv =>
              ({ st1 with log := { st1.log with
                  nameSets := st1.log.nameSets ++
                    [(addr, nv.asGodotString)] } }, .ok .unit)
      | .getPath =>
          let p := createGuest st1 (.str (E.nodePath addr))
          (p.1, .ok (.gv p.2))
      | .getParent =>
          match E.nodeParent addr with
          | none => (st1, .ok (.gv .nil))
          | some par =>
              let p := createGuest st1 (.obj par)
              (p.1, .ok (.gv p.2))
      | .queueFree =>
          if addr = st1.self_addr then (st1, .error .cannotQueueFreeSandbox)
          else (queue_free_node st1 addr, .ok .unit)
      | .duplicate =>
          let newAddr := E.duplicateNode addr
          let st2 := add_scoped_object st1 newAddr
          let p := createGuest st2 (.obj newAddr)
          (p.1, .ok (.gv p.2))
      | .getChildCount =>
          (st1, .ok (.gv (.int ((E.nodeChildren addr).length : Int))))
      | .getChild =>
          match (E.nodeChildren addr).get? (gvar.getD 0 .nil).payload with
          | none => (st1, .ok (.gv .nil))
          | some c => (add_scoped_object st1 c, .ok (.gv (.int (c : Int))))
      | .addChild =>
          match get_node_from_address st1 (gvar.getD 0 .nil).payload with
          | .error e => (st1, .error e)
          | .ok c =>
              ({ st1 with log := { st1.log with
                  childAdds := st1.log.childAdds ++ [(addr, c, false)] } },
               .ok .unit)
      | .addChildDeferred =>
          match get_node_from_address st1 (gvar.getD 0 .nil).payload with
          | .error e => (st1, .error e)
          | .ok c =>
              ({ st1 with log := { st1.log with
                  childAdds := st1.log.childAdds ++ [(addr, c, true)] } },
               .ok .unit)
      | .addSibling =>
          match get_node_from_address st1 (gvar.getD 0 .nil).payload with
          | .error e => (st1, .error e)
          | .ok c =>
              ({ st1 with log := { st1.log with
                  siblingAdds := st1.log.siblingAdds ++ [(addr, c, false)] } },
               .ok .unit)
      | .addSiblingDeferred =>
          match get_node_from_address st1 (gvar.getD 0 .nil).payload with
          | .error e => (st1, .error e)
          | .ok c =>
              ({ st1 with log := { st1.log with
                  siblingAdds := st1.log.siblingAdds ++ [(addr, c, true)] } },
               .ok .unit)
      | .moveChild =>
          match get_node_from_address st1 (gvar.getD 0 .nil).payload with
          | .error e => (st1, .error e)
          | .ok c =>
              ({ st1 with log := { st1.log with
                  childMoves := st1.log.childMoves ++
                    [(addr, c, (gvar.getD 1 .nil).payload)] } }, .ok .unit)
      | .removeChild =>
          match get_node_from_address st1 (gvar.getD 0 .nil).payload with
          | .error e => (st1, .error e)
          | .ok c =>
              ({ st1 with log := { st1.log with
                  childRemoves := st1.log.childRemoves ++ [(addr, c, false)] } },
               .ok .unit)
      | .removeChildDeferred =>
          match get_node_from_address st1 (gvar.getD 0 .nil).payload with
          | .error e => (st1, .error e)
          | .ok c =>
              ({ st1 with log := { st1.log with
                  childRemoves := st1.log.childRemoves ++ [(addr, c, true)] } },
               .ok .unit)
      | .getChildren =>
          let cs := E.nodeChildren addr
          (cs.foldl add_scoped_object st1, .ok (.nums cs))
      | .unknownOp _ => (st1, .error .invalidOperation)

/-- `Node2D_Op`: operation selector of `api_node2d` (values 0..7 in
`syscalls.h`); `unknownOp` stands for the `default:` case. -/
inductive Node2DOp where
  | getPosition
  | setPosition
  | getRotation
  | setRotation
  | getScale
  | setScale
  | getSkew
  | setSkew
  | unknownOp (n : Nat)
  deriving Repr, DecidableEq

/-- `api_node2d`: penalize 100'000, resolve the node address through
`get_node_from_address`, require the node to cast to `Node2D`, then get or
set the selected spatial field (position 0, rotation 1, scale 2, skew 3;
SET_POSITION goes through `set_deferred`). -/
def api_node2d (E : HostEngine) (st : SState) (op : Node2DOp) (addr : Nat)
    (gv : GuestVariant) : HResult :=
  let st1 := penalize st 100000
  match get_node_from_address st1 addr with
  | .error e => (st1, .error e)
  | .ok _ =>
      if E.isNode2D addr then
        match op with
        | .getPosition =>
            let p := createGuest st1 (E.spatial2D addr 0)
            (p.1, .ok (.gv p.2))
        | .setPosition =>
            match toVariant st1 gv with
            | .error e => (st1, .error e)
            | .ok v =>
                ({ st1 with log := { st1.log with
                    deferredSets2D := st1.log.deferredSets2D ++
                      [(addr, 0, v)] } }, .ok .unit)
        | .getRotation =>
            let p := createGuest st1 (E.spatial2D addr 1)
            (p.1, .ok (.gv p.2))
        | .setRotation =>
            match toVariant st1 gv with
            | .error e => (st1, .error e)
            | .ok v =>
                ({ st1 with log := { st1.log with
                    spatialSets2D := st1.log.spatialSets2D ++
                      [(addr, 1, v)] } }, .ok .unit)
        | .getScale =>
            let p := createGuest st1 (E.spatial2D addr 2)
            (p.1, .ok (.gv p.2))
        | .setScale =>
            match toVariant st1 gv with
            | .error e => (st1, .error e)
            | .ok v =>
                ({ st1 with log := { st1.log with
                    spatialSets2D := st1.log.spatialSets2D ++
                      [(addr, 2, v)] } }, .ok .unit)
        | .getSkew =>
            let p := createGuest st1 (E.spatial2D addr 3)
            (p.1, .ok (.gv p.2))
        | .setSkew =>
            match toVariant st1 gv with
            | .error e => (st1, .error e)
            | .ok v =>
                ({ st1 with log := { st1.log with
                    spatialSets2D := st1.log.spatialSets2D ++
                      [(addr, 3, v)] } }, .ok .unit)
        | .unknownOp _ => (st1, .error .invalidOperation)
      else (st1, .error .notANode2D)

/-- `Node3D_Op`: operation selector of `api_node3d`; `unknownOp` stands for
the `default:` case. -/
inductive Node3DOp where
  | getPosition
  | setPosition
  | getRotation
  | setRotation
  | getScale
  | setScale
  | unknownOp (n : Nat)
  deriving Repr, DecidableEq

/-- `api_node3d`: penalize 100'000, resolve the node address through
`get_node_from_address`, require the node to cast to `Node3D`, then get or
set the selected spatial field (position 0, rotation 1, scale 2). -/
def api_node3d (E : HostEngine) (st : SState) (op : Node3DOp) (addr : Nat)
    (gv : GuestVariant) : HResult :=
  let st1 := penalize st 100000
  match get_node_from_address st1 addr with
  | .error e => (st1, .error e)
  | .ok _ =>
      if E.isNode3D addr then
        match op with
        | .getPosition =>
            let p := createGuest st1 (E.spatial3D addr 0)
            (p.1, .ok (.gv p.2))
        | .setPosition =>
            match toVariant st1 gv with
            | .error e => (st1, .error e)
            | .ok v =>
                ({ st1 with log := { st1.log with
                    spatialSets3D := st1.log.spatialSets3D ++
                      [(addr, 0, v)] } }, .ok .unit)
        | .getRotation =>
            let p := createGuest st1 (E.spatial3D addr 1)
            (p.1, .ok (.gv p.2))
        | .setRotation =>
            match toVariant st1 gv with
            | .error e => (st1, .error e)
            | .ok v =>
                ({ st1 with log := { st1.log with
                    spatialSets3D := st1.log.spatialSets3D ++
                      [(addr, 1, v)] } }, .ok .unit)
        | .getScale =>
            let p := createGuest st1 (E.spatial3D addr 2)
            (p.1, .ok (.gv p.2))
        | .setScale =>
            match toVariant st1 gv with
            | .error e => (st1, .error e)
            | .ok v =>
                ({ st1 with log := { st1.log with
                    spatialSets3D := st1.log.spatialSets3D ++
                      [(addr, 2, v)] } }, .ok .unit)
        | .unknownOp _ => (st1, .error .invalidOperation)
      else (st1, .error .notANode3D)

/-- `Array_Op`: operation selector of `api_array_ops`; `unknownOp` stands
for the `default:` case. -/
inductive ArrayOp where
  | create
  | pushBack
  | pushFront
  | popAt
  | popBack
  | popFront
  | insert
  | erase
  | resize
  | clear
  | sort
  | unknownOp (n : Nat)
  deriving Repr, DecidableEq

/-- `Array::erase(value)`: remove the first element equal to the value (the
handler passes the integer `idx` argument, implicitly converted to a
Variant). -/
def removeFirstEq : List Variant → Variant → List Variant
  | [], _ => []
  | x :: xs, v => if x = v then xs else x :: removeFirstEq xs v

/-- `Array::pop_at(idx)` index normalisation (negative indices count from
the end); out-of-range leaves the array unchanged. -/
def popAtList (cell : List Variant) (idx : Int) : List Variant :=
  let j := if idx < 0 then idx + (cell.length : Int) else idx
  if j < 0 ∨ (cell.length : Int) ≤ j then cell
  else cell.eraseIdx j.toNat

/-- `Array::resize(n)`: truncate or pad with nil. -/
def resizeList (cell : List Variant) (n : Nat) : List Variant :=
  cell.take n ++ List.replicate (n - cell.length) Variant.nil

/-- `api_array_ops`: the scoped-variant handle `arr_idx` is validated as an
existing scoped ARRAY variant *before* the operation switch — including for
`CREATE`, whose `arr_idx` argument is actually the requested size of the new
array, so `CREATE` only proceeds when that size happens to alias an existing
scoped ARRAY handle.  All mutating arms act on the shared heap cell of the
scoped array (Godot Arrays are shared references).  Charges no penalty. -/
def api_array_ops (E : HostEngine) (st : SState) (op : ArrayOp)
    (arr_idx : Nat) (idx : Int) (gv : GuestVariant) : HResult :=
  match get_scoped_variant st arr_idx with
  | none => (st, .error .invalidArrayObject)
  | some v =>
      match v with
      | .arrayRef h =>
          let cell := (st.arrays.get? h).getD []
          match op with
          | .create =>
              let newHandle := st.arrays.length
              let st1 := { st with
                  arrays := st.arrays ++ [List.replicate arr_idx Variant.nil] }
              let p := create_scoped_variant st1 (.arrayRef newHandle)
              (p.1, .ok (.gv (.arrayIdx p.2)))
          | .pushBack =>
              match toVariant st gv with
              | .error e => (st, .error e)
              | .ok x =>
                  ({ st with arrays := st.arrays.set h (cell ++ [x]) },
                   .ok .unit)
          | .pushFront =>
              match toVariant st gv with
              | .error e => (st, .error e)
              | .ok x =>
                  ({ st with arrays := st.arrays.set h (x :: cell) },
                   .ok .unit)
          | .popAt =>
              ({ st with arrays := st.arrays.set h (popAtList cell idx) },
               .ok .unit)
          | .popBack =>
              ({ st with arrays := st.arrays.set h cell.dropLast }, .ok .unit)
          | .popFront =>
              ({ st with arrays := st.arrays.set h (cell.drop 1) }, .ok .unit)
          | .insert =>
              match toVariant st gv with
              | .error e => (st, .error e)
              | .ok x =>
                  ({ st with arrays := (st.arrays.set h
                      (cell.take idx.toNat ++ [x] ++ cell.drop idx.toNat)) }, .ok .unit)
          | .erase =>
              ({ st with arrays := st.arrays.set h (removeFirstEq cell (.int idx)) },
               .ok .unit)
          | .resize =>
              ({ st with arrays := st.arrays.set h (resizeList cell idx.toNat) },
               .ok .unit)
          | .clear =>
              ({ st with arrays := st.arrays.set h [] }, .ok .unit)
          | .sort =>
              ({ st with arrays := st.arrays.set h (E.sortArray cell) },
               .ok .unit)
          | .unknownOp _ => (st, .error .invalidOperation)
      | _ => (st, .error .invalidArrayObject)

/-- `api_array_at`: validate the scoped ARRAY handle, bounds-check the
index, then write back the element.  Charges no penalty. -/
def api_array_at (st : SState) (arr_idx : Nat) (idx : Int) : HResult :=
  match get_scoped_variant st arr_idx with
  | none => (st, .error .invalidArrayObject)
  | some v =>
      match v with
      | .arrayRef h =>
          let cell := (st.arrays.get? h).getD []
          if idx < 0 ∨ (cell.length : Int) ≤ idx then
            (st, .error .indexOutOfBounds)
          else
            let p := createGuest st (cell.getD idx.toNat .nil)
            (p.1, .ok (.gv p.2))
      | _ => (st, .error .invalidArrayObject)

/-- `api_array_size`: validate the scoped ARRAY handle, return the size.
Charges no penalty. -/
def api_array_size (st : SState) (arr_idx : Nat) : HResult :=
  match get_scoped_variant st arr_idx with
  | none => (st, .error .invalidArrayObject)
  | some v =>
      match v with
      | .arrayRef h =>
          (st, .ok (.num (((st.arrays.get? h).getD []).length : Int)))
      | _ => (st, .error .invalidArrayObject)

/-- `Dictionary_Op`: operation selector of `api_dict_ops`; `unknownOp`
stands for the `default:` case. -/
inductive DictOp where
  | get
  | set
  | erase
  | has
  | getSize
  | clear
  | merge
  | unknownOp (n : Nat)
  deriving Repr, DecidableEq

/-- Lookup in a dictionary cell (insertion-ordered association list). -/
def assocGet : List (Variant × Variant) → Variant → Option Variant
  | [], _ => none
  | kv :: rest, k => if kv.1 = k then some kv.2 else assocGet rest k

/-- `dict[key] = value`: overwrite in place when the key exists, append
otherwise (Godot dictionaries preserve insertion order). -/
def assocSet : List (Variant × Variant) → Variant → Variant →
    List (Variant × Variant)
  | [], k, v => [(k, v)]
  | kv :: rest, k, v =>
      if kv.1 = k then (k, v) :: rest else kv :: assocSet rest k v

/-- `Dictionary::erase(key)`: remove the key's entry when present. -/
def assocRemove : List (Variant × Variant) → Variant →
    List (Variant × Variant)
  | [], _ => []
  | kv :: rest, k => if kv.1 = k then rest else kv :: assocRemove rest k

/-- `Dictionary::merge(other)` with default overwrite=false: append the
entries of `other` whose keys are absent from the base. -/
def mergeAbsent (base other : List (Variant × Variant)) :
    List (Variant × Variant) :=
  other.foldl
    (fun acc kv => if (assocGet acc kv.1).isSome then acc else acc ++ [kv])
    base

/-- `api_dict_ops`: the scoped-variant handle `dict_idx` is validated as an
existing scoped DICTIONARY variant before the operation switch; all arms
act on the shared heap cell (Godot Dictionaries are shared references).
GET reads `dict[key]` through godot-cpp's non-const `Dictionary::operator[]`,
which inserts a nil entry when the key is missing and yields nil; the read
value is written back through the codec's `create`.  Charges no penalty. -/
def api_dict_ops (st : SState) (op : DictOp) (dict_idx : Nat)
    (keyG valG : GuestVariant) : HResult :=
  match get_scoped_variant st dict_idx with
  | none => (st, .error .invalidDictionaryObject)
  | some v =>
      match v with
      | .dictRef h =>
          let cell := (st.dicts.get? h).getD []
          match op with
          | .get =>
              match toVariant st keyG with
              | .error e => (st, .error e)
              | .ok k =>
                  match assocGet cell k with
                  | some v0 =>
                      let p := createGuest st v0
                      (p.1, .ok (.gv p.2))
                  | none =>
                      let st2 := { st with
                          dicts := (st.dicts.set h (cell ++ [(k, .nil)])) }
                      let p := createGuest st2 .nil
                      (p.1, .ok (.gv p.2))
          | .set =>
              match toVariant st keyG with
              | .error e => (st, .error e)
              | .ok k =>
                  match toVariant st valG with
                  | .error e => (st, .error e)
                  | .ok x =>
                      ({ st with dicts := st.dicts.set h (assocSet cell k x) },
                       .ok .unit)
          | .erase =>
              match toVariant st keyG with
              | .error e => (st, .error e)
              | .ok k =>
                  ({ st with dicts := st.dicts.set h (assocRemove cell k) },
                   .ok .unit)
          | .has =>
              match toVariant st keyG with
              | .error e => (st, .error e)
              | .ok k => (st, .ok (.boolean (assocGet cell k).isSome))
          | .getSize => (st, .ok (.num (cell.length : Int)))
          | .clear => ({ st with dicts := st.dicts.set h [] }, .ok .unit)
          | .merge =>
              match toVariant st keyG with
              | .error e => (st, .error e)
              | .ok o =>
                  match o with
                  | .dictRef h2 =>
                      let other := (st.dicts.get? h2).getD []
                      ({ st with dicts := (st.dicts.set h
                          (mergeAbsent cell other)) }, .ok .unit)
                  | _ =>
                      ({ st with dicts := st.dicts.set h (mergeAbsent cell []) },
                       .ok .unit)
          | .unknownOp _ => (st, .error .invalidOperation)
      | _ => (st, .error .invalidDictionaryObject)

/-- `Sandbox::MAX_LEVEL` (maximum call recursion depth, `sandbox.h`). -/
def MAX_LEVEL : Nat := 8

/-- `Sandbox::CurrentState` (`sandbox.h`): the per-level capability scope
(owned variants, scoped variant references, scoped object addresses). -/
structure CurrentState where
  variants : List Variant := []
  csScopedVariants : List Variant := []
  csScopedObjects : List Nat := []
  deriving Repr, DecidableEq

/-- `CurrentState::reset` (`sandbox.h`): clear the three collections (the
`max_refs` argument only pre-reserves capacity). -/
def CurrentState.reset (_cs : CurrentState) (_max_refs : Nat) : CurrentState :=
  {}

/-- The recursion/scoping state of `Sandbox`: current call level `m_level`
and the fixed-size scope array `m_states` (length `MAX_LEVEL + 1`, index 0
holding the permanent level). -/
structure CallStack where
  m_level : Nat
  m_states : List CurrentState
  deriving Repr, DecidableEq

/-- Modelled from the spec: the body of the call-level entry transition (in
`Sandbox::vmcall_internal`, not among the provided sources).  Per spec
section 4.2: depth += 1; a depth exceeding `MAX_LEVEL` is a fatal
StackOverflow performed before any work, materializing no scope; otherwise
the scope at the new depth is reset for the fresh call level. -/
def CallStack.enter (cs : CallStack) (max_refs : Nat) : Except SysErr CallStack :=
  if MAX_LEVEL < cs.m_level + 1 then .error .stackOverflow
  else
    .ok { m_level := cs.m_level + 1,
          m_states := cs.m_states.set (cs.m_level + 1)
            ((cs.m_states.getD (cs.m_level + 1) {}).reset max_refs) }

/-- Modelled from the spec: the call-level exit transition.  Per spec
section 4.2: clear the scope at the current depth (releasing owned values
and admitted objects), then depth -= 1. -/
def CallStack.leave (cs : CallStack) (max_refs : Nat) : CallStack :=
  { m_level := cs.m_level - 1,
    m_states := cs.m_states.set cs.m_level
      ((cs.m_states.getD cs.m_level {}).reset max_refs) }

/-- `GAME_API_BASE` (`syscalls.h`). -/
def GAME_API_BASE : Nat := 500

/-- Modelled from the spec: the numeric values of the operation identifiers
installed by `Sandbox::initialize_syscalls`.  The guest header among the
sources fixes the first identifiers (PRINT = 500, VCALL, VEVAL, ... in a
dense block from `GAME_API_BASE`); the remaining identifiers of the current
`syscalls.h` are not among the provided sources and are modelled, per the
spec's "dense set of operation identifiers in one numeric namespace", as
the continuation of that dense block.  Only membership in this list, not
the individual values, matters to any theorem below. -/
def installed_syscalls : List Nat :=
  (List.range 33).map (fun k => GAME_API_BASE + k)

/-- Outcome of one dispatch: either a table handler ran, or the
unhandled-syscall fallback ran and reported the call. -/
inductive DispatchNote where
  | handled
  | unhandled (msg : String)
  deriving Repr, DecidableEq

/-- `machine.on_unhandled_syscall` (`Sandbox::initialize_syscalls`): print
an "Unhandled system call" diagnostic through the sandbox, then penalize
100'000. -/
def on_unhandled_syscall (st : SState) (sysno : Nat) : SState × DispatchNote :=
  let msg := "Unhandled system call: " ++ toString sysno
  let st1 := { st with log := { st.log with
      diagnostics := st.log.diagnostics ++ [msg] } }
  (penalize st1 100000, .unhandled msg)

/-- The dispatch split of the guest VM: an operation identifier present in
the installed table runs its handler (the `api_` functions above); any
other identifier runs the unhandled-syscall fallback, which never throws. -/
def dispatch_syscall (st : SState) (sysno : Nat) :
    SState × Except SysErr DispatchNote :=
  if sysno ∈ installed_syscalls then (st, .ok .handled)
  else
    let p := on_unhandled_syscall st sysno
    (p.1, .ok p.2)

/-- A concrete host engine used to instantiate the engine-quantified
theorems at witness inputs. -/
def E0 : HostEngine where
  evaluateOp := fun _ _ _ => (true, .nil)
  getProp := fun _ _ => .nil
  methodList := fun _ => []
  propertyList := fun _ => []
  signalList := fun _ => []
  callMethod := fun _ _ _ => .nil
  nodeName := fun _ => ""
  nodePath := fun _ => ""
  nodeParent := fun _ => none
  nodeChildren := fun _ => []
  getNodeByPath := fun _ _ => none
  duplicateNode := fun a => a + 1
  isNode2D := fun _ => false
  isNode3D := fun _ => false
  spatial2D := fun _ _ => .nil
  spatial3D := fun _ _ => .nil
  sortArray := fun xs => xs

/-- A concrete state holding one scoped DICTIONARY variant (handle 0) whose
heap cell is empty. -/
def stDict : SState :=
  { scoped_variants := [.dictRef 0], dicts := [[]] }

/-- A concrete state with one admitted object at address 7 and the
sandbox's own node at address 3. -/
def stScoped : SState :=
  { scoped_objects := [7], self_addr := 3 }

@[simp] theorem budget_penalize (st : SState) (n : Nat) :
    (penalize st n).budget = st.budget + n := rfl

@[simp] theorem scoped_penalize (st : SState) (n a : Nat) :
    is_scoped_object (penalize st n) a = is_scoped_object st a := rfl

@[simp] theorem scoped_variant_penalize (st : SState) (n i : Nat) :
    get_scoped_variant (penalize st n) i = get_scoped_variant st i := rfl

@[simp] theorem tree_base_penalize (st : SState) (n : Nat) :
    (penalize st n).tree_base = st.tree_base := rfl

@[simp] theorem self_addr_penalize (st : SState) (n : Nat) :
    (penalize st n).self_addr = st.self_addr := rfl

@[simp] theorem log_penalize (st : SState) (n : Nat) :
    (penalize st n).log = st.log := rfl

@[simp] theorem budget_create_scoped_variant (st : SState) (v : Variant) :
    (create_scoped_variant st v).1.budget = st.budget := rfl

@[simp] theorem budget_add_scoped_object (st : SState) (a : Nat) :
    (add_scoped_object st a).budget = st.budget := rfl

@[simp] theorem budget_createGuest (st : SState) (v : Variant) :
    (createGuest st v).1.budget = st.budget := by
  cases v <;> rfl

@[simp] theorem budget_queue_free_node (st : SState) (a : Nat) :
    (queue_free_node st a).budget = st.budget := rfl

@[simp] theorem budget_foldl_add_scoped (cs : List Nat) (st : SState) :
    (cs.foldl add_scoped_object st).budget = st.budget := by
  induction cs generalizing st with
  | nil => rfl
  | cons c cs ih => simpa using ih (add_scoped_object st c)

@[simp] theorem budget_printLoop (gs : List GuestVariant) (st : SState) :
    (printLoop st gs).1.budget = st.budget := by
  induction gs generalizing st with
  | nil => rfl
  | cons g gs ih =>
      unfold printLoop
      cases toVariant st g with
      | error e => rfl
      | ok v => simpa using ih _

theorem get_object_from_address_not_scoped {st : SState} {addr : Nat}
    (h0 : addr ≠ 0) (h : is_scoped_object st addr = false) :
    get_object_from_address st addr = .error .objectNotScoped := by
  simp [get_object_from_address, h0, h]

theorem get_node_from_address_not_scoped {st : SState} {addr : Nat}
    (h0 : addr ≠ 0) (h : is_scoped_object st addr = false) :
    get_node_from_address st addr = .error .objectNotScoped := by
  simp [get_node_from_address, h0, h]

/-- Claim C1: every syscall that receives a raw host-object address (generic
object operations, object method call, node operations, Node2D/Node3D
operations) fails with the ObjectNotScoped error when the (non-null) address
was not admitted to the currently active capability scope — returning with
only the budget penalty applied and no host operation performed on the
address — and when the address was admitted the scope check passes. -/
theorem raw_address_syscalls_gated_by_scope
    (E : HostEngine) (st : SState) (addr : Nat) (h0 : addr ≠ 0) :
    (is_scoped_object st addr = false →
      (∀ op gv, api_obj E st op addr gv =
        (penalize st 250000, .error .objectNotScoped)) ∧
      (∀ m d hr args, api_obj_callp E st addr m d hr args =
        (penalize st 250000, .error .objectNotScoped)) ∧
      (∀ op gv, api_node E st op addr gv =
        (penalize st 250000, .error .objectNotScoped)) ∧
      (∀ op gv, api_node2d E st op addr gv =
        (penalize st 100000, .error .objectNotScoped)) ∧
      (∀ op gv, api_node3d E st op addr gv =
        (penalize st 100000, .error .objectNotScoped))) ∧
    (is_scoped_object st addr = true →
      get_object_from_address st addr = .ok addr ∧
      get_node_from_address st addr = .ok addr) := by
  constructor
  · intro h
    have hN : ∀ n : Nat, get_node_from_address (penalize st n) addr =
        .error .objectNotScoped := by
      intro n
      exact get_node_from_address_not_scoped h0 (by simpa using h)
    refine ⟨?_, ?_, ?_, ?_, ?_⟩
    · intro op gv
      unfold api_obj
      simp [h]
    · intro m d hr args
      unfold api_obj_callp
      simp [h]
    · intro op gv
      unfold api_node
      simp [hN]
    · intro op gv
      unfold api_node2d
      simp [hN]
    · intro op gv
      unfold api_node3d
      simp [hN]
  · intro h
    constructor
    · simp [get_object_from_address, h0, h]
    · simp [get_node_from_address, h0, h]

/-- Witness for C1 at concrete inputs: address 5 is not admitted in the
empty state, so `api_obj` fails with ObjectNotScoped having only charged the
penalty; address 7 is admitted in `stScoped`, so the scope check passes. -/
theorem raw_address_syscalls_gated_by_scope_witness :
    api_obj E0 ({} : SState) .get 5 [] =
      (penalize ({} : SState) 250000, .error .objectNotScoped) ∧
    get_object_from_address stScoped 7 = .ok 7 :=
  ⟨((raw_address_syscalls_gated_by_scope E0 ({} : SState) 5
      (by decide)).1 (by rfl)).1 .get [],
   ((raw_address_syscalls_gated_by_scope E0 stScoped 7
      (by decide)).2 (by rfl)).1⟩

/-- Claim C2 counterexample: at the concrete non-admitted base address 5,
the get-node-by-path syscall completes with the ok default result 0 — a
silently degraded default, not a failure of the call. -/
theorem get_node_unscoped_base_default_counterexample :
    is_scoped_object ({} : SState) 5 = false ∧
    api_get_node E0 ({} : SState) 5 "Enemy" =
      (penalize ({} : SState) 150000, .ok (.num 0)) :=
  ⟨rfl, rfl⟩

/-- Claim C2 (amended): a capability violation — a non-admitted raw address
in the object, object-method-call, node and Node2D/Node3D syscalls, or an
out-of-range or wrong-value-kind scoped-variant handle in the array and
dictionary syscalls — is always fatal to the current call and is never
degraded to a default result; the single exception is the get-node-by-path
operation, which on a non-admitted base address prints an error and returns
a default zero result to the guest instead of failing the call. -/
theorem capability_violations_fatal_except_get_node
    (E : HostEngine) (st : SState) (addr : Nat) (h0 : addr ≠ 0)
    (h : is_scoped_object st addr = false) :
    (∀ op gv, failed (api_obj E st op addr gv).2 = true) ∧
    (∀ m d hr args, failed (api_obj_callp E st addr m d hr args).2 = true) ∧
    (∀ op gv, failed (api_node E st op addr gv).2 = true) ∧
    (∀ op gv, failed (api_node2d E st op addr gv).2 = true) ∧
    (∀ op gv, failed (api_node3d E st op addr gv).2 = true) ∧
    (∀ op idx j gv, (∀ k, get_scoped_variant st idx ≠ some (.arrayRef k)) →
      failed (api_array_ops E st op idx j gv).2 = true) ∧
    (∀ idx j, (∀ k, get_scoped_variant st idx ≠ some (.arrayRef k)) →
      failed (api_array_at st idx j).2 = true) ∧
    (∀ idx, (∀ k, get_scoped_variant st idx ≠ some (.arrayRef k)) →
      failed (api_array_size st idx).2 = true) ∧
    (∀ op idx kG vG, (∀ k, get_scoped_variant st idx ≠ some (.dictRef k)) →
      failed (api_dict_ops st op idx kG vG).2 = true) ∧
    (∀ name, api_get_node E st addr name =
      (penalize st 150000, .ok (.num 0))) := by
  have hN : ∀ n : Nat, get_node_from_address (penalize st n) addr =
      .error .objectNotScoped := by
    intro n
    exact get_node_from_address_not_scoped h0 (by simpa using h)
  refine ⟨?_, ?_, ?_, ?_, ?_, ?_, ?_, ?_, ?_, ?_⟩
  · intro op gv
    unfold api_obj
    simp [h, failed]
  · intro m d hr args
    unfold api_obj_callp
    simp [h, failed]
  · intro op gv
    unfold api_node
    simp [hN, failed]
  · intro op gv
    unfold api_node2d
    simp [hN, failed]
  · intro op gv
    unfold api_node3d
    simp [hN, failed]
  · intro op idx j gv hno
    unfold api_array_ops
    cases hw : get_scoped_variant st idx with
    | none => simp [failed]
    | some w =>
        cases w
        all_goals try exact absurd hw (hno _)
        all_goals simp [failed]
  · intro idx j hno
    unfold api_array_at
    cases hw : get_scoped_variant st idx with
    | none => simp [failed]
    | some w =>
        cases w
        all_goals try exact absurd hw (hno _)
        all_goals simp [failed]
  · intro idx hno
    unfold api_array_size
    cases hw : get_scoped_variant st idx with
    | none => simp [failed]
    | some w =>
        cases w
        all_goals try exact absurd hw (hno _)
        all_goals simp [failed]
  · intro op idx kG vG hno
    unfold api_dict_ops
    cases hw : get_scoped_variant st idx with
    | none => simp [failed]
    | some w =>
        cases w
        all_goals try exact absurd hw (hno _)
        all_goals simp [failed]
  · intro name
    unfold api_get_node
    simp [h0, h]

/-- Witness for the amended C2 at concrete inputs: with non-admitted base
address 5 in the empty state, `api_node` fails the call, an array push
through the out-of-range handle 0 fails the call, while `api_get_node`
returns the ok default 0. -/
theorem capability_violations_fatal_except_get_node_witness :
    failed (api_node E0 ({} : SState) .getName 5 []).2 = true ∧
    failed (api_array_ops E0 ({} : SState) .pushBack 0 0 .nil).2 = true ∧
    api_get_node E0 ({} : SState) 5 "." =
      (penalize ({} : SState) 150000, .ok (.num 0)) :=
  ⟨(capability_violations_fatal_except_get_node E0 ({} : SState) 5
      (by decide) (by rfl)).2.2.1 .getName [],
   (capability_violations_fatal_except_get_node E0 ({} : SState) 5
      (by decide) (by rfl)).2.2.2.2.2.1 .pushBack 0 0 .nil
     (by intro k hk; simp [get_scoped_variant] at hk),
   (capability_violations_fatal_except_get_node E0 ({} : SState) 5
      (by decide) (by rfl)).2.2.2.2.2.2.2.2.2 "."⟩

/-- Claim C3 counterexample: the print syscall performs its work (the
variant is decoded and printed) and completes successfully at a concrete
input while charging nothing to the budget. -/
theorem print_without_budget_charge_counterexample :
    (api_print ({} : SState) [.int 1]).1.budget = ({} : SState).budget ∧
    (api_print ({} : SState) [.int 1]).2 = .ok .unit ∧
    (api_print ({} : SState) [.int 1]).1.log.printedVariants = [.int 1] :=
  ⟨rfl, rfl, rfl⟩

/-- Claim C3 (amended): the variant-create, get-node, object, object
method-call, node and Node2D/Node3D handlers charge their fixed cost on
every invocation, success or failure; the print, value-evaluate, array and
dictionary handlers charge nothing. -/
theorem syscall_budget_charges (E : HostEngine) (st : SState) :
    (∀ t m d, (api_vcreate st t m d).1.budget = st.budget + 10000) ∧
    (∀ a nm, (api_get_node E st a nm).1.budget = st.budget + 150000) ∧
    (∀ op a gv, (api_obj E st op a gv).1.budget = st.budget + 250000) ∧
    (∀ a m d hr args,
      (api_obj_callp E st a m d hr args).1.budget = st.budget + 250000) ∧
    (∀ op a gv, (api_node E st op a gv).1.budget = st.budget + 250000) ∧
    (∀ op a gv, (api_node2d E st op a gv).1.budget = st.budget + 100000) ∧
    (∀ op a gv, (api_node3d E st op a gv).1.budget = st.budget + 100000) ∧
    (∀ vars, (api_print st vars).1.budget = st.budget) ∧
    (∀ op a b, (api_veval E st op a b).1.budget = st.budget) ∧
    (∀ op i j gv, (api_array_ops E st op i j gv).1.budget = st.budget) ∧
    (∀ i j, (api_array_at st i j).1.budget = st.budget) ∧
    (∀ i, (api_array_size st i).1.budget = st.budget) ∧
    (∀ op i k v, (api_dict_ops st op i k v).1.budget = st.budget) := by
  refine ⟨?_, ?_, ?_, ?_, ?_, ?_, ?_, ?_, ?_, ?_, ?_, ?_, ?_⟩
  · intro t m d
    unfold api_vcreate
    try dsimp only
    repeat' split
    all_goals simp
  · intro a nm
    unfold api_get_node
    try dsimp only
    repeat' split
    all_goals simp
  · intro op a gv
    unfold api_obj
    try dsimp only
    repeat' split
    all_goals simp
  · intro a m d hr args
    unfold api_obj_callp
    try dsimp only
    repeat' split
    all_goals simp
  · intro op a gv
    unfold api_node
    try dsimp only
    repeat' split
    all_goals simp
  · intro op a gv
    unfold api_node2d
    try dsimp only
    repeat' split
    all_goals simp
  · intro op a gv
    unfold api_node3d
    try dsimp only
    repeat' split
    all_goals simp
  · intro vars
    unfold api_print
    split
    all_goals simp
  · intro op a b
    unfold api_veval
    try dsimp only
    repeat' split
    all_goals simp
  · intro op i j gv
    unfold api_array_ops
    try dsimp only
    repeat' split
    all_goals simp
  · intro i j
    unfold api_array_at
    try dsimp only
    repeat' split
    all_goals simp
  · intro i
    unfold api_array_size
    try dsimp only
    repeat' split
    all_goals simp
  · intro op i k v
    unfold api_dict_ops
    try dsimp only
    repeat' split
    all_goals simp

theorem get?_set_self {α : Type} (l : List α) (i : Nat) (a : α)
    (h : i < l.length) : (l.set i a).get? i = some a := by
  induction l generalizing i with
  | nil => simp at h
  | cons x xs ih =>
      cases i with
      | zero => rfl
      | succ n => simpa using ih n (by simpa using h)

theorem toVariant_inline (st : SState) (g : GuestVariant)
    (h : g.isInline = true) : toVariant st g = .ok g.inlineVal := by
  cases g <;> first
    | rfl
    | exact absurd h (by simp [GuestVariant.isInline])

theorem createGuest_inline (st : SState) (g : GuestVariant)
    (h : g.isInline = true) : createGuest st g.inlineVal = (st, g) := by
  cases g <;> first
    | rfl
    | exact absurd h (by simp [GuestVariant.isInline])

theorem assocGet_assocSet_self (cell : List (Variant × Variant))
    (k v : Variant) : assocGet (assocSet cell k v) k = some v := by
  induction cell with
  | nil => simp [assocSet, assocGet]
  | cons kv rest ih =>
      by_cases hk : kv.1 = k
      · simp [assocSet, hk, assocGet]
      · simp [assocSet, hk, assocGet, ih]

theorem getElem?_concat_length {α : Type} (l : List α) (a : α) :
    (l ++ [a])[l.length]? = some a := by
  induction l with
  | nil => rfl
  | cons x xs ih => simp [ih]

theorem toVariant_eq_of_scope_eq {stA stB : SState}
    (h1 : stA.scoped_variants = stB.scoped_variants)
    (h2 : stA.scoped_objects = stB.scoped_objects) (g : GuestVariant) :
    toVariant stA g = toVariant stB g := by
  cases g <;> simp [toVariant, get_scoped_variant, is_scoped_object, h1, h2]

/-- Decode-after-encode: the `GuestVariant` written back by the codec for a
host value decodes, in the state the encoding produced, to that same host
value (reference kinds through the scope entry the encoding created). -/
theorem toVariant_createGuest (st : SState) (v : Variant) :
    toVariant (createGuest st v).1 (createGuest st v).2 = .ok v := by
  cases v <;>
    simp [createGuest, toVariant, get_scoped_variant, create_scoped_variant,
      is_scoped_object, add_scoped_object, getElem?_concat_length]

/-- Claim C4: entering a call level at depth `MAX_LEVEL` fails fatally with
StackOverflow (returning no new state, so no capability scope is
materialized); at any depth strictly below `MAX_LEVEL` the transition
increments the depth by one and installs a freshly reset scope at the new
level. -/
theorem enter_recursion_bound
    (cs : CallStack) (max_refs : Nat)
    (hlen : cs.m_states.length = MAX_LEVEL + 1) :
    (cs.m_level = MAX_LEVEL → cs.enter max_refs = .error .stackOverflow) ∧
    (cs.m_level < MAX_LEVEL →
      ∀ cs2, cs.enter max_refs = .ok cs2 →
        cs2.m_level = cs.m_level + 1 ∧
        cs2.m_states.get? cs2.m_level = some ({} : CurrentState)) := by
  constructor
  · intro h
    unfold CallStack.enter
    simp [h, MAX_LEVEL]
  · intro h cs2 he
    unfold CallStack.enter at he
    rw [if_neg (by omega)] at he
    cases he
    refine ⟨rfl, ?_⟩
    exact get?_set_self _ _ _ (by omega)

/-- Witness for C4 at concrete inputs: a stack at depth `MAX_LEVEL` fails
to enter; a stack at depth 3 enters to depth 4 with a fresh scope there. -/
theorem enter_recursion_bound_witness :
    CallStack.enter ⟨MAX_LEVEL, List.replicate 9 ({} : CurrentState)⟩ 100 =
      .error .stackOverflow ∧
    ((4 : Nat) = 3 + 1 ∧
      (List.replicate 9 ({} : CurrentState)).get? 4 =
        some ({} : CurrentState)) :=
  ⟨(enter_recursion_bound ⟨MAX_LEVEL, List.replicate 9 {}⟩ 100 rfl).1 rfl,
   (enter_recursion_bound ⟨3, List.replicate 9 {}⟩ 100 rfl).2
     (by decide) ⟨4, List.replicate 9 ({} : CurrentState)⟩ rfl⟩

/-- Claim C5 (code bug evaluated at the failing input): in a fresh call
scope (no scoped variants) the array-create operation itself fails with
"Invalid Array object", because `api_array_ops` validates `arr_idx` as an
existing scoped ARRAY handle before the switch, while CREATE's `arr_idx`
argument is the requested size of the new array; the spec scenario
(create, push three values, read back size 3) is therefore unreachable in
a fresh scope. -/
theorem array_create_fails_in_fresh_scope :
    get_scoped_variant ({} : SState) 0 = none ∧
    api_array_ops E0 ({} : SState) .create 0 0 .nil =
      (({} : SState), .error .invalidArrayObject) :=
  ⟨rfl, rfl⟩

/-- Claim C6: through a scoped dictionary handle and for every key and
value the codec can decode (inline and reference kinds alike): a GET of a
missing key yields nil (inserting the nil entry for that key, as the
source's `dict[key]` read does); after a SET of that same key to the
value, a subsequent GET of that key through the same handle succeeds and
the guest variant it writes back decodes to exactly the host value that
was set. -/
theorem dict_get_after_set_returns_value
    (st : SState) (dict_idx h : Nat) (kg vg : GuestVariant) (k v : Variant)
    (hv : get_scoped_variant st dict_idx = some (.dictRef h))
    (hcell : h < st.dicts.length)
    (hkey : toVariant st kg = .ok k)
    (hval : toVariant st vg = .ok v)
    (hmiss : assocGet (st.dicts[h]?.getD []) k = none) :
    (api_dict_ops st .get dict_idx kg .nil).2 = .ok (.gv .nil) ∧
    (api_dict_ops (api_dict_ops st .get dict_idx kg .nil).1 .set dict_idx
      kg vg).2 = .ok .unit ∧
    (∃ g3,
      (api_dict_ops (api_dict_ops (api_dict_ops st .get dict_idx kg
        .nil).1 .set dict_idx kg vg).1 .get dict_idx kg .nil).2 =
        .ok (.gv g3) ∧
      toVariant (api_dict_ops (api_dict_ops (api_dict_ops st .get dict_idx
        kg .nil).1 .set dict_idx kg vg).1 .get dict_idx kg .nil).1 g3 =
        .ok v) := by
  have hg1 : api_dict_ops st .get dict_idx kg .nil =
      ({ st with dicts := (st.dicts.set h
          ((st.dicts[h]?.getD []) ++ [(k, .nil)])) }, .ok (.gv .nil)) := by
    unfold api_dict_ops
    rw [hv]
    simp [hkey, hmiss, createGuest]
  set st1 : SState := { st with dicts := (st.dicts.set h
      ((st.dicts[h]?.getD []) ++ [(k, .nil)])) } with hst1
  have hv1 : get_scoped_variant st1 dict_idx = some (.dictRef h) := hv
  have hkey1 : toVariant st1 kg = .ok k :=
    (toVariant_eq_of_scope_eq rfl rfl kg).trans hkey
  have hval1 : toVariant st1 vg = .ok v :=
    (toVariant_eq_of_scope_eq rfl rfl vg).trans hval
  have hc1 : st1.dicts[h]? = some ((st.dicts[h]?.getD []) ++ [(k, .nil)]) := by
    simpa [hst1] using get?_set_self st.dicts h
      ((st.dicts[h]?.getD []) ++ [(k, .nil)]) hcell
  have hs2 : api_dict_ops st1 .set dict_idx kg vg =
      ({ st1 with dicts := (st1.dicts.set h
          (assocSet ((st.dicts[h]?.getD []) ++ [(k, .nil)]) k v)) },
       .ok .unit) := by
    unfold api_dict_ops
    rw [hv1]
    simp [hkey1, hval1, hc1]
  set st3 : SState := { st1 with dicts := (st1.dicts.set h
      (assocSet ((st.dicts[h]?.getD []) ++ [(k, .nil)]) k v)) } with hst3
  have hv3 : get_scoped_variant st3 dict_idx = some (.dictRef h) := hv
  have hkey3 : toVariant st3 kg = .ok k :=
    (toVariant_eq_of_scope_eq rfl rfl kg).trans hkey
  have hc3 : (st.dicts.set h
      (assocSet ((st.dicts[h]?.getD []) ++ [(k, .nil)]) k v))[h]? =
      some (assocSet ((st.dicts[h]?.getD []) ++ [(k, .nil)]) k v) := by
    simpa using get?_set_self st.dicts h
      (assocSet ((st.dicts[h]?.getD []) ++ [(k, .nil)]) k v) hcell
  have hg3 : api_dict_ops st3 .get dict_idx kg .nil =
      ((createGuest st3 v).1, .ok (.gv (createGuest st3 v).2)) := by
    unfold api_dict_ops
    rw [hv3]
    simp [hkey3, hc3, assocGet_assocSet_self]
  refine ⟨?_, ?_, ?_⟩
  · rw [hg1]
  · rw [hg1]
    show (api_dict_ops st1 .set dict_idx kg vg).2 = .ok .unit
    rw [hs2]
  · refine ⟨(createGuest st3 v).2, ?_, ?_⟩
    · rw [hg1]
      show (api_dict_ops (api_dict_ops st1 .set dict_idx kg vg).1 .get
        dict_idx kg .nil).2 = .ok (.gv (createGuest st3 v).2)
      rw [hs2]
      show (api_dict_ops st3 .get dict_idx kg .nil).2 =
        .ok (.gv (createGuest st3 v).2)
      rw [hg3]
    · rw [hg1]
      show toVariant (api_dict_ops (api_dict_ops st1 .set dict_idx kg
        vg).1 .get dict_idx kg .nil).1 (createGuest st3 v).2 = .ok v
      rw [hs2]
      show toVariant (api_dict_ops st3 .get dict_idx kg .nil).1
        (createGuest st3 v).2 = .ok v
      rw [hg3]
      exact toVariant_createGuest st3 v

/-- Witness for C6 at concrete inputs: dictionary handle 0 of `stDict`,
missing key 1, value 7 — the GET after the SET succeeds and its written
guest variant decodes to 7. -/
theorem dict_get_after_set_returns_value_witness :
    (api_dict_ops stDict .get 0 (.int 1) .nil).2 = .ok (.gv .nil) ∧
    (api_dict_ops (api_dict_ops stDict .get 0 (.int 1) .nil).1 .set 0
      (.int 1) (.int 7)).2 = .ok .unit ∧
    (∃ g3,
      (api_dict_ops (api_dict_ops (api_dict_ops stDict .get 0 (.int 1)
        .nil).1 .set 0 (.int 1) (.int 7)).1 .get 0 (.int 1) .nil).2 =
        .ok (.gv g3) ∧
      toVariant (api_dict_ops (api_dict_ops (api_dict_ops stDict .get 0
        (.int 1) .nil).1 .set 0 (.int 1) (.int 7)).1 .get 0 (.int 1)
        .nil).1 g3 = .ok (.int 7)) :=
  dict_get_after_set_returns_value stDict 0 0 (.int 1) (.int 7)
    (.int 1) (.int 7) rfl (by decide) rfl rfl rfl

/-- Claim C7: a get-node request with base address 0 when no tree base is
configured completes with the failure result 0 written to the guest — an ok
outcome (no exception, no crash), with only the penalty charged. -/
theorem get_node_without_base_fails_gracefully
    (E : HostEngine) (st : SState) (path : String)
    (h : st.tree_base = none) :
    api_get_node E st 0 path = (penalize st 150000, .ok (.num 0)) := by
  unfold api_get_node
  simp [h]

/-- Witness for C7 at concrete inputs: the empty state has no tree base and
the path "." resolves to the failure result 0. -/
theorem get_node_without_base_fails_gracefully_witness :
    api_get_node E0 ({} : SState) 0 "." =
      (penalize ({} : SState) 150000, .ok (.num 0)) :=
  get_node_without_base_fails_gracefully E0 ({} : SState) "." rfl

/-- Claim C8: queue-for-destruction applied to the sandbox's own host node
always fails (the null/scope checks or the self guard reject it) and never
records the node in the destruction queue; applied to any other admitted
(non-null) node it succeeds and queues that node for destruction. -/
theorem queue_free_guards_sandbox_node
    (E : HostEngine) (st : SState) (gv : List GuestVariant) (addr : Nat) :
    (addr = st.self_addr →
      failed (api_node E st .queueFree addr gv).2 = true ∧
      (api_node E st .queueFree addr gv).1.log.queuedFree =
        st.log.queuedFree) ∧
    (addr ≠ st.self_addr → addr ≠ 0 → is_scoped_object st addr = true →
      api_node E st .queueFree addr gv =
        (queue_free_node (penalize st 250000) addr, .ok .unit)) := by
  constructor
  · intro h
    subst h
    unfold api_node
    by_cases h0 : st.self_addr = 0
    · simp [get_node_from_address, h0, failed]
    · cases hsc : is_scoped_object st st.self_addr
      · simp [get_node_from_address, h0, hsc, failed]
      · simp [get_node_from_address, h0, hsc, failed]
  · intro hne h0 hsc
    unfold api_node
    simp [get_node_from_address, h0, hsc, hne]

/-- Witness for C8 at concrete inputs: in `stScoped` (own node at address
3, admitted object 7) queue-free of address 3 fails without queuing, while
queue-free of address 7 queues it. -/
theorem queue_free_guards_sandbox_node_witness :
    failed (api_node E0 stScoped .queueFree 3 []).2 = true ∧
    api_node E0 stScoped .queueFree 7 [] =
      (queue_free_node (penalize stScoped 250000) 7, .ok .unit) :=
  ⟨((queue_free_guards_sandbox_node E0 stScoped [] 3).1 rfl).1,
   (queue_free_guards_sandbox_node E0 stScoped [] 7).2 (by decide)
     (by decide) rfl⟩

/-- Claim C9: an operation identifier not present in the installed syscall
table routes to the unhandled-syscall fallback, which charges the 100'000
penalty, reports the call as unhandled in the diagnostics, and completes
without raising any fatal error. -/
theorem unknown_syscall_fallback_penalizes
    (st : SState) (sysno : Nat) (h : sysno ∉ installed_syscalls) :
    dispatch_syscall st sysno =
      ((on_unhandled_syscall st sysno).1,
       .ok ((on_unhandled_syscall st sysno).2)) ∧
    (on_unhandled_syscall st sysno).1.budget = st.budget + 100000 ∧
    (on_unhandled_syscall st sysno).2 =
      .unhandled ("Unhandled system call: " ++ toString sysno) ∧
    (on_unhandled_syscall st sysno).1.log.diagnostics =
      st.log.diagnostics ++ ["Unhandled system call: " ++ toString sysno] := by
  refine ⟨?_, ?_, ?_, ?_⟩
  · simp [dispatch_syscall, h]
  · simp [on_unhandled_syscall, penalize]
  · rfl
  · rfl

/-- Witness for C9 at a concrete input: identifier 9999 is not in the
table; the dispatch completes ok through the fallback. -/
theorem unknown_syscall_fallback_penalizes_witness :
    dispatch_syscall ({} : SState) 9999 =
      ((on_unhandled_syscall ({} : SState) 9999).1,
       .ok ((on_unhandled_syscall ({} : SState) 9999).2)) :=
  (unknown_syscall_fallback_penalizes ({} : SState) 9999 (by decide)).1

/-- Claim C10: the equality operator on two object-kind guest variants
always succeeds, returning the boolean comparison of the raw address
payloads with no scope check and no state change; any other operator on two
object-kind variants fails the call unless both addresses are admitted to
the current scope. -/
theorem veval_object_equality_skips_scope
    (E : HostEngine) (st : SState) (a b : Nat) :
    api_veval E st OP_EQUAL (.object a) (.object b) =
      (st, .ok (.pair true (.boolean (a == b)))) ∧
    (∀ op, op ≠ OP_EQUAL →
      is_scoped_object st a = false ∨ is_scoped_object st b = false →
      failed (api_veval E st op (.object a) (.object b)).2 = true) := by
  constructor
  · unfold api_veval
    simp
  · intro op hop hsc
    unfold api_veval
    dsimp only
    rw [if_neg hop]
    by_cases h0a : a = 0
    · simp [get_object_from_address, h0a, failed]
    · cases ha : is_scoped_object st a
      · simp [get_object_from_address, h0a, ha, failed]
      · have hb : is_scoped_object st b = false := by
          rcases hsc with h | h
          · rw [ha] at h
            exact absurd h (by simp)
          · exact h
        by_cases h0b : b = 0
        · simp [get_object_from_address, h0a, ha, h0b, failed]
        · simp [get_object_from_address, h0a, ha, h0b, hb, failed]

/-- Witness for C10 at concrete inputs: equality on the never-admitted
addresses 1 and 2 succeeds in the empty state; the operator 3 on the same
pair fails. -/
theorem veval_object_equality_skips_scope_witness :
    api_veval E0 ({} : SState) OP_EQUAL (.object 1) (.object 2) =
      (({} : SState), .ok (.pair true (.boolean (1 == 2)))) ∧
    failed (api_veval E0 ({} : SState) 3 (.object 1) (.object 2)).2 = true :=
  ⟨(veval_object_equality_skips_scope E0 ({} : SState) 1 2).1,
   (veval_object_equality_skips_scope E0 ({} : SState) 1 2).2 3 (by decide)
     (Or.inl rfl)⟩

end GodotSandboxModel
